import Mathlib

/-!
Model of the nibbstack erc721-validator orchestration layer: the class
`ERC721Validator` in `src/validator.ts` (the revision whose operations
return an `ERC721ValidatorResult`), together with the case-id dispatch of
the probe contracts in `src/contracts/validator.sol`.

Each of the TypeScript operations `basic`, `token` and `transfer` builds one
promise.  Its executor may call `reject` and `resolve` several times; only
the first such call settles the promise and later calls are ignored.  We
embed each operation as a pure function from its inputs and the simulation
outcome delivered by the estimate-gas callback to
  - the list of deploy-and-estimate-gas requests handed to the network
    collaborator (web3), in program order, and
  - the ordered list of settlement attempts made on the promise.
The value observed by the caller is the first settlement attempt.
-/

namespace ERC721

/-- Checks that the second character list is a leading segment of the first,
character by character. -/
def startsWithChars : List Char → List Char → Bool
  | _, [] => true
  | [], _ :: _ => false
  | c :: s, d :: p => c == d && startsWithChars s p

/-- Checks that the second character list occurs contiguously inside the
first. -/
def containsChars : List Char → List Char → Bool
  | [], p => startsWithChars [] p
  | c :: s, p => startsWithChars (c :: s) p || containsChars s p

/-- JavaScript substring containment, as used on the rendered error. -/
def strIncludes (s p : String) : Bool := containsChars s.data p.data

/-- JavaScript truthiness of an optional string argument: an absent value and
the empty string are both falsy, everything else is truthy. -/
def truthyStr : Option String → Bool
  | none => false
  | some s => !s.data.isEmpty

/-- JavaScript truthiness of the tokenId argument: an absent value and the
number 0 are both falsy, everything else is truthy. -/
def truthyTok : Option Nat → Bool
  | none => false
  | some n => !(n == 0)

/-- Raw result of one estimate-gas simulation, as delivered to the callback:
either a gas quantity with no error, or an error whose string rendering is
the given message (in which case the callback receives no gas value). -/
inductive SimulationOutcome where
  | success (gas : Nat)
  | failure (err : String)
  deriving DecidableEq, Repr

/-- The record the operations resolve with: `result` is the compliance flag
and `gas` is exactly the value the estimate-gas callback passed, which is
absent when the callback reported an error. -/
structure ERC721ValidatorResult where
  result : Bool
  gas : Option Nat
  deriving DecidableEq, Repr

/-- One settlement attempt on the promise built by an operation. -/
inductive Attempt where
  /-- The resolve function applied to an `ERC721ValidatorResult`. -/
  | resolveRes (r : ERC721ValidatorResult)
  /-- The reject function applied to a missing-argument message string. -/
  | rejectStr (msg : String)
  /-- The reject function applied to the error received from the callback. -/
  | rejectErr (e : String)
  deriving DecidableEq, Repr

/-- The three fixed probe bytecode blobs supplied by the codes module. -/
inductive Bytecode where
  | DATA_BASIC
  | DATA_TOKEN
  | DATA_TRANSFER
  deriving DecidableEq, Repr

/-- One positional constructor argument of a probe deployment, as the
operation forwards it (possibly absent, since the operations forward their
inputs unchanged). -/
inductive JsArg where
  | num (n : Nat)
  | str (s : Option String)
  | tok (t : Option Nat)
  deriving DecidableEq, Repr

/-- The transaction envelope the transfer operation passes to the
estimate-gas request: a sender identity and an attached value. -/
structure TxOpts where
  fromAddr : String
  value : String
  deriving DecidableEq, Repr

/-- One deploy-and-estimate-gas request handed to the network collaborator:
the fixed bytecode, the ordered constructor argument list, and the optional
transaction envelope. -/
structure DeployCall where
  data : Bytecode
  arguments : List JsArg
  opts : Option TxOpts
  deriving DecidableEq, Repr

/-- Everything one operation invocation does: the network requests it issues
and the settlement attempts it makes, each in program order. -/
structure OpRun where
  deploys : List DeployCall
  attempts : List Attempt
  deriving DecidableEq, Repr

/-- A promise settles with its first resolve or reject; later calls are
ignored, so the caller observes exactly the first attempt. -/
def observed (r : OpRun) : Option Attempt := r.attempts.head?

/-- Message rejected with when the contract address argument is falsy. -/
def contractMsg : String := "You must provide contract address as input"

/-- Message rejected with when the tokenId argument is falsy. -/
def tokenIdMsg : String := "You must provide tokenId as input"

/-- Message rejected with when the giver address argument is falsy. -/
def giverMsg : String := "You must provide giver address as input"

/-- The expected-failure signature test appearing in each of the three
estimate-gas callbacks: the rendered error contains the substring
"always failing transaction" or the substring "execution reverted". -/
def matchesKnownSignature (e : String) : Bool :=
  strIncludes e "always failing transaction" || strIncludes e "execution reverted"

/-- The estimate-gas callback body, textually repeated in `basic`, `token`
and `transfer`: with no error it resolves with the true flag and the gas
value; with an error matching a known signature it resolves with the false
flag and the absent gas value; with any other error it first rejects with
the error and then still calls resolve with the false flag and the absent
gas value. -/
def callbackAttempts : SimulationOutcome → List Attempt
  | .success g => [Attempt.resolveRes ⟨true, some g⟩]
  | .failure e =>
    if matchesKnownSignature e then
      [Attempt.resolveRes ⟨false, none⟩]
    else
      [Attempt.rejectErr e, Attempt.resolveRes ⟨false, none⟩]

/-- The basic operation: a falsy contract address is rejected first (with no
early return in the source, so execution continues), then the deploy request
with arguments in the order caseId, contract is issued and the callback
runs on the outcome. -/
def basicRun (test : Nat) (contract : Option String)
    (outcome : SimulationOutcome) : OpRun :=
  { deploys := [{ data := Bytecode.DATA_BASIC,
                  arguments := [JsArg.num test, JsArg.str contract],
                  opts := none }],
    attempts :=
      (if truthyStr contract then [] else [Attempt.rejectStr contractMsg]) ++
      callbackAttempts outcome }

/-- The token operation: falsy contract address and falsy tokenId are each
rejected (in that order, with no early return), then the deploy request with
arguments in the order caseId, contract, tokenId is issued and the callback
runs on the outcome. -/
def tokenRun (test : Nat) (contract : Option String) (tokenId : Option Nat)
    (outcome : SimulationOutcome) : OpRun :=
  { deploys := [{ data := Bytecode.DATA_TOKEN,
                  arguments := [JsArg.num test, JsArg.str contract,
                                JsArg.tok tokenId],
                  opts := none }],
    attempts :=
      (if truthyStr contract then [] else [Attempt.rejectStr contractMsg]) ++
      (if truthyTok tokenId then [] else [Attempt.rejectStr tokenIdMsg]) ++
      callbackAttempts outcome }

/-- The attached value string of the transfer estimate-gas request. -/
def transferValueStr : String := "1000000000000000000000000"

/-- The transfer operation: falsy contract address, falsy tokenId and falsy
giver address are each rejected (in that order, with no early return), then
the deploy request with arguments in the order caseId, contract, tokenId,
giver is issued, with a transaction envelope whose sender is the
millionCoinAddress given to the class constructor and whose attached value
is the fixed value string; the callback runs on the outcome. -/
def transferRun (millionCoinAddress : String) (test : Nat)
    (contract : Option String) (tokenId : Option Nat) (giver : Option String)
    (outcome : SimulationOutcome) : OpRun :=
  { deploys := [{ data := Bytecode.DATA_TRANSFER,
                  arguments := [JsArg.num test, JsArg.str contract,
                                JsArg.tok tokenId, JsArg.str giver],
                  opts := some { fromAddr := millionCoinAddress,
                                 value := transferValueStr } }],
    attempts :=
      (if truthyStr contract then [] else [Attempt.rejectStr contractMsg]) ++
      (if truthyTok tokenId then [] else [Attempt.rejectStr tokenIdMsg]) ++
      (if truthyStr giver then [] else [Attempt.rejectStr giverMsg]) ++
      callbackAttempts outcome }

/-- Case ids dispatched by the BasicValidator constructor in the probe
contract source; any other id reaches the final failing assertion. -/
def basicValidatorHandles (caseId : Nat) : Bool :=
  caseId == 1 || caseId == 2 || caseId == 3 || caseId == 4 || caseId == 5 ||
  caseId == 6 || caseId == 7 || caseId == 8 || caseId == 9 || caseId == 10

/-- Case ids dispatched by the TokenValidator constructor in the probe
contract source; any other id reaches the final failing assertion. -/
def tokenValidatorHandles (caseId : Nat) : Bool :=
  caseId == 1 || caseId == 2 || caseId == 3

/-- Case ids dispatched by the TransferValidator constructor in the probe
contract source; any other id reaches the final failing assertion. -/
def transferValidatorHandles (caseId : Nat) : Bool :=
  caseId == 1 || caseId == 2 || caseId == 3 || caseId == 4 || caseId == 5 ||
  caseId == 6 || caseId == 7 || caseId == 8 || caseId == 9 || caseId == 10 ||
  caseId == 11 || caseId == 12 || caseId == 13 || caseId == 14

/-- Wei amount of the one million ether the transfer probe pulls from the
giver contract (the getTokenFromGiver step attaches this value), with one
ether being ten to the eighteenth wei. -/
def giverPullWei : Nat := 1000000 * 10 ^ 18

/-- Decimal reading of a digit string, to interpret the attached value
string in wei. -/
def decNat (s : String) : Nat :=
  s.data.foldl (fun acc c => acc * 10 + (c.toNat - 48)) 0

/-- Claim C1: for every simulation outcome that is an error whose message
matches no known expected-failure signature, each of the operations basic,
token and transfer settles by rejecting with that error, and never settles
with a resolved result (in particular never one whose flag is false). -/
theorem claim1_unknown_error_rejects
    (t : Nat) (mca : String) (c g : Option String) (tok : Option Nat)
    (e : String) (hc : truthyStr c = true) (htok : truthyTok tok = true)
    (hg : truthyStr g = true) (hm : matchesKnownSignature e = false) :
    observed (basicRun t c (SimulationOutcome.failure e))
      = some (Attempt.rejectErr e) ∧
    observed (tokenRun t c tok (SimulationOutcome.failure e))
      = some (Attempt.rejectErr e) ∧
    observed (transferRun mca t c tok g (SimulationOutcome.failure e))
      = some (Attempt.rejectErr e) ∧
    (∀ r, observed (basicRun t c (SimulationOutcome.failure e))
      ≠ some (Attempt.resolveRes r)) ∧
    (∀ r, observed (tokenRun t c tok (SimulationOutcome.failure e))
      ≠ some (Attempt.resolveRes r)) ∧
    (∀ r, observed (transferRun mca t c tok g (SimulationOutcome.failure e))
      ≠ some (Attempt.resolveRes r)) := by
  simp [observed, basicRun, tokenRun, transferRun, callbackAttempts,
    hc, htok, hg, hm]

/-- Witness for C1 at the connection-timeout example from the spec. -/
theorem claim1_unknown_error_rejects_witness :
    observed (basicRun 1 (some "0xA") (SimulationOutcome.failure "connection timeout"))
      = some (Attempt.rejectErr "connection timeout") :=
  (claim1_unknown_error_rejects 1 "0xC" (some "0xA") (some "0xB") (some 7)
    "connection timeout" (by decide) (by decide) (by decide) (by decide)).1

/-- Claim C2 counterexample: on the execution-reverted error outcome the
basic operation resolves with the false flag, but the resolved record
carries no gas value at all rather than the gas value 0. -/
theorem claim2_counterexample :
    observed (basicRun 1 (some "0xA") (SimulationOutcome.failure "execution reverted"))
      = some (Attempt.resolveRes { result := false, gas := none }) ∧
    ({ result := false, gas := none } : ERC721ValidatorResult).gas ≠ some 0 := by
  decide

/-- Claim C2 (amended): for every error outcome whose message contains a
known expected-failure signature, each of basic, token and transfer resolves
with the false compliance flag, and the gas field of the result is the value
passed by the callback, which is absent on an error outcome, not 0. -/
theorem claim2_known_signature_resolves_false
    (t : Nat) (mca : String) (c g : Option String) (tok : Option Nat)
    (e : String) (hc : truthyStr c = true) (htok : truthyTok tok = true)
    (hg : truthyStr g = true) (hm : matchesKnownSignature e = true) :
    observed (basicRun t c (SimulationOutcome.failure e))
      = some (Attempt.resolveRes { result := false, gas := none }) ∧
    observed (tokenRun t c tok (SimulationOutcome.failure e))
      = some (Attempt.resolveRes { result := false, gas := none }) ∧
    observed (transferRun mca t c tok g (SimulationOutcome.failure e))
      = some (Attempt.resolveRes { result := false, gas := none }) := by
  simp [observed, basicRun, tokenRun, transferRun, callbackAttempts,
    hc, htok, hg, hm]

/-- Witness for the amended C2 at the execution-reverted example. -/
theorem claim2_known_signature_resolves_false_witness :
    observed (tokenRun 1 (some "0xA") (some 7) (SimulationOutcome.failure "execution reverted"))
      = some (Attempt.resolveRes { result := false, gas := none }) :=
  (claim2_known_signature_resolves_false 1 "0xC" (some "0xA") (some "0xB")
    (some 7) "execution reverted" (by decide) (by decide) (by decide)
    (by decide)).2.1

/-- Claim C3: for every gas outcome with no error, each of basic, token and
transfer resolves with the true compliance flag and exactly that gas
quantity. -/
theorem claim3_success_resolves_true_with_gas
    (t n : Nat) (mca : String) (c g : Option String) (tok : Option Nat)
    (hc : truthyStr c = true) (htok : truthyTok tok = true)
    (hg : truthyStr g = true) :
    observed (basicRun t c (SimulationOutcome.success n))
      = some (Attempt.resolveRes { result := true, gas := some n }) ∧
    observed (tokenRun t c tok (SimulationOutcome.success n))
      = some (Attempt.resolveRes { result := true, gas := some n }) ∧
    observed (transferRun mca t c tok g (SimulationOutcome.success n))
      = some (Attempt.resolveRes { result := true, gas := some n }) := by
  simp [observed, basicRun, tokenRun, transferRun, callbackAttempts,
    hc, htok, hg]

/-- Witness for C3 at the gas value 54000 from the spec. -/
theorem claim3_success_resolves_true_with_gas_witness :
    observed (basicRun 1 (some "0xA") (SimulationOutcome.success 54000))
      = some (Attempt.resolveRes { result := true, gas := some 54000 }) :=
  (claim3_success_resolves_true_with_gas 1 54000 "0xC" (some "0xA")
    (some "0xB") (some 7) (by decide) (by decide) (by decide)).1

/-- Claim C4 counterexample: with the contract address missing, the basic
operation does settle by rejecting with the missing-argument message, but
the deploy-and-estimate-gas request is still issued: the network
collaborator is invoked once, not zero times. -/
theorem claim4_counterexample :
    observed (basicRun 1 none (SimulationOutcome.success 5))
      = some (Attempt.rejectStr contractMsg) ∧
    (basicRun 1 none (SimulationOutcome.success 5)).deploys.length = 1 := by
  decide

/-- Claim C4 (amended): when a required argument is falsy the operation
settles first with the corresponding missing-argument rejection, before any
network outcome can matter; but the source has no early return, so the
deploy-and-estimate-gas request is still handed to the network collaborator
exactly once. -/
theorem claim4_missing_argument_rejects_first
    (t : Nat) (mca : String) (c g : Option String) (tok : Option Nat)
    (o : SimulationOutcome) (hc : truthyStr c = true)
    (htok : truthyTok tok = true) :
    observed (basicRun t none o) = some (Attempt.rejectStr contractMsg) ∧
    (basicRun t none o).deploys.length = 1 ∧
    observed (tokenRun t none tok o) = some (Attempt.rejectStr contractMsg) ∧
    observed (tokenRun t c none o) = some (Attempt.rejectStr tokenIdMsg) ∧
    (tokenRun t c none o).deploys.length = 1 ∧
    observed (transferRun mca t none tok g o)
      = some (Attempt.rejectStr contractMsg) ∧
    observed (transferRun mca t c none g o)
      = some (Attempt.rejectStr tokenIdMsg) ∧
    observed (transferRun mca t c tok none o)
      = some (Attempt.rejectStr giverMsg) ∧
    (transferRun mca t c tok none o).deploys.length = 1 := by
  simp [observed, basicRun, tokenRun, transferRun, hc, htok,
    show truthyStr none = false from rfl, show truthyTok none = false from rfl]

/-- Witness for the amended C4 with a missing giver address. -/
theorem claim4_missing_argument_rejects_first_witness :
    observed (transferRun "0xC" 2 (some "0xA") (some 7) none
      (SimulationOutcome.success 5)) = some (Attempt.rejectStr giverMsg) :=
  (claim4_missing_argument_rejects_first 2 "0xC" (some "0xA") (some "0xB")
    (some 7) (SimulationOutcome.success 5) (by decide)
    (by decide)).2.2.2.2.2.2.2.1

/-- Claim C5 counterexample: case id 11 is outside the Basic range of the
probe contract, yet the basic operation issues one network request and even
resolves with a normal compliance verdict, rather than failing with an
UnknownCase error before any network interaction. -/
theorem claim5_counterexample :
    basicValidatorHandles 11 = false ∧
    (basicRun 11 (some "0xA") (SimulationOutcome.success 54000)).deploys.length = 1 ∧
    observed (basicRun 11 (some "0xA") (SimulationOutcome.success 54000))
      = some (Attempt.resolveRes { result := true, gas := some 54000 }) := by
  decide

/-- Claim C5 (amended): the TypeScript operations perform no local case-id
range check; an out-of-range case id is passed unchanged as the first deploy
argument, the network collaborator is invoked exactly once, and the outcome
is settled by the ordinary callback path. The ranges are enforced only
inside the probe contracts, whose constructors hit a failing assertion on
unregistered ids, surfacing as a simulation error rather than a local
UnknownCase failure. -/
theorem claim5_no_local_case_check
    (tb tt tf : Nat) (mca : String) (c g : Option String) (tok : Option Nat)
    (o : SimulationOutcome) (hb : basicValidatorHandles tb = false)
    (htk : tokenValidatorHandles tt = false)
    (htf : transferValidatorHandles tf = false) (hc : truthyStr c = true)
    (htok : truthyTok tok = true) (hg : truthyStr g = true) :
    (basicRun tb c o).deploys
      = [{ data := Bytecode.DATA_BASIC,
           arguments := [JsArg.num tb, JsArg.str c], opts := none }] ∧
    observed (basicRun tb c o) = (callbackAttempts o).head? ∧
    (tokenRun tt c tok o).deploys
      = [{ data := Bytecode.DATA_TOKEN,
           arguments := [JsArg.num tt, JsArg.str c, JsArg.tok tok],
           opts := none }] ∧
    observed (tokenRun tt c tok o) = (callbackAttempts o).head? ∧
    (transferRun mca tf c tok g o).deploys
      = [{ data := Bytecode.DATA_TRANSFER,
           arguments := [JsArg.num tf, JsArg.str c, JsArg.tok tok,
                         JsArg.str g],
           opts := some { fromAddr := mca, value := transferValueStr } }] ∧
    observed (transferRun mca tf c tok g o) = (callbackAttempts o).head? := by
  simp [observed, basicRun, tokenRun, transferRun, hc, htok, hg]

/-- Witness for the amended C5 at out-of-range ids 11, 4 and 15. -/
theorem claim5_no_local_case_check_witness :
    observed (basicRun 11 (some "0xA") (SimulationOutcome.success 54000))
      = (callbackAttempts (SimulationOutcome.success 54000)).head? :=
  (claim5_no_local_case_check 11 4 15 "0xC" (some "0xA") (some "0xB") (some 7)
    (SimulationOutcome.success 54000) (by decide) (by decide) (by decide)
    (by decide) (by decide) (by decide)).2.1

/-- Claim C6: for every valid invocation, the constructor argument list
handed to the network collaborator has the case id first and the target
contract address second, with the token operation appending the tokenId, the
transfer operation appending the tokenId and then the giver address, and the
basic operation appending nothing. -/
theorem claim6_argument_order
    (t : Nat) (mca : String) (c g : Option String) (tok : Option Nat)
    (o : SimulationOutcome) (hc : truthyStr c = true)
    (htok : truthyTok tok = true) (hg : truthyStr g = true) :
    (basicRun t c o).deploys
      = [{ data := Bytecode.DATA_BASIC,
           arguments := [JsArg.num t, JsArg.str c], opts := none }] ∧
    (tokenRun t c tok o).deploys
      = [{ data := Bytecode.DATA_TOKEN,
           arguments := [JsArg.num t, JsArg.str c, JsArg.tok tok],
           opts := none }] ∧
    (transferRun mca t c tok g o).deploys
      = [{ data := Bytecode.DATA_TRANSFER,
           arguments := [JsArg.num t, JsArg.str c, JsArg.tok tok,
                         JsArg.str g],
           opts := some { fromAddr := mca, value := transferValueStr } }] := by
  exact ⟨rfl, rfl, rfl⟩

/-- Witness for C6 at a concrete valid invocation. -/
theorem claim6_argument_order_witness :
    (basicRun 3 (some "0xA") (SimulationOutcome.success 5)).deploys
      = [{ data := Bytecode.DATA_BASIC,
           arguments := [JsArg.num 3, JsArg.str (some "0xA")],
           opts := none }] :=
  (claim6_argument_order 3 "0xC" (some "0xA") (some "0xB") (some 7)
    (SimulationOutcome.success 5) (by decide) (by decide) (by decide)).1

/-- Claim C7: every transfer invocation submits the estimate-gas request
with a transaction envelope whose sender is exactly the millionCoinAddress
supplied to the class constructor (so not a fixed address) and whose
attached value, read in wei, equals the one million ether the probe pulls
from the giver, hence is large enough for that step. -/
theorem claim7_transfer_value_and_sender
    (mca : String) (t : Nat) (c g : Option String) (tok : Option Nat)
    (o : SimulationOutcome) :
    (transferRun mca t c tok g o).deploys
      = [{ data := Bytecode.DATA_TRANSFER,
           arguments := [JsArg.num t, JsArg.str c, JsArg.tok tok,
                         JsArg.str g],
           opts := some { fromAddr := mca, value := transferValueStr } }] ∧
    decNat transferValueStr = giverPullWei ∧
    giverPullWei ≤ decNat transferValueStr := by
  exact ⟨rfl, by decide, by decide⟩

/-- Claim C8: invoking the same operation twice with an identical request
against a collaborator returning the same simulation outcome both times
yields identical runs and identical observed results; the classification is
a pure function of its inputs with no hidden state. -/
theorem claim8_deterministic
    (t t2 : Nat) (mca mca2 : String) (c c2 g g2 : Option String)
    (tok tok2 : Option Nat) (o o2 : SimulationOutcome)
    (ht : t = t2) (hmca : mca = mca2) (hc : c = c2) (hg : g = g2)
    (htok : tok = tok2) (ho : o = o2) :
    basicRun t c o = basicRun t2 c2 o2 ∧
    tokenRun t c tok o = tokenRun t2 c2 tok2 o2 ∧
    transferRun mca t c tok g o = transferRun mca2 t2 c2 tok2 g2 o2 ∧
    observed (basicRun t c o) = observed (basicRun t2 c2 o2) ∧
    observed (tokenRun t c tok o) = observed (tokenRun t2 c2 tok2 o2) ∧
    observed (transferRun mca t c tok g o)
      = observed (transferRun mca2 t2 c2 tok2 g2 o2) := by
  subst ht hmca hc hg htok ho
  exact ⟨rfl, rfl, rfl, rfl, rfl, rfl⟩

/-- Witness for C8 at one concrete repeated invocation. -/
theorem claim8_deterministic_witness :
    basicRun 1 (some "0xA") (SimulationOutcome.success 5)
      = basicRun 1 (some "0xA") (SimulationOutcome.success 5) :=
  (claim8_deterministic 1 1 "0xC" "0xC" (some "0xA") (some "0xA")
    (some "0xB") (some "0xB") (some 7) (some 7)
    (SimulationOutcome.success 5) (SimulationOutcome.success 5)
    rfl rfl rfl rfl rfl rfl).1

/-- Claim C9: on an error outcome matching no known signature, the attempt
trace of each operation is the rejection with the original error followed by
the unconditional resolve of the false result, so the first-settlement rule
means the caller observes the rejection and never the false result. -/
theorem claim9_reject_precedes_resolve
    (t : Nat) (mca : String) (c g : Option String) (tok : Option Nat)
    (e : String) (hc : truthyStr c = true) (htok : truthyTok tok = true)
    (hg : truthyStr g = true) (hm : matchesKnownSignature e = false) :
    (basicRun t c (SimulationOutcome.failure e)).attempts
      = [Attempt.rejectErr e,
         Attempt.resolveRes { result := false, gas := none }] ∧
    observed (basicRun t c (SimulationOutcome.failure e))
      = some (Attempt.rejectErr e) ∧
    (tokenRun t c tok (SimulationOutcome.failure e)).attempts
      = [Attempt.rejectErr e,
         Attempt.resolveRes { result := false, gas := none }] ∧
    observed (tokenRun t c tok (SimulationOutcome.failure e))
      = some (Attempt.rejectErr e) ∧
    (transferRun mca t c tok g (SimulationOutcome.failure e)).attempts
      = [Attempt.rejectErr e,
         Attempt.resolveRes { result := false, gas := none }] ∧
    observed (transferRun mca t c tok g (SimulationOutcome.failure e))
      = some (Attempt.rejectErr e) := by
  simp [observed, basicRun, tokenRun, transferRun, callbackAttempts,
    hc, htok, hg, hm]

/-- Witness for C9 at a concrete unmatched error. -/
theorem claim9_reject_precedes_resolve_witness :
    (basicRun 1 (some "0xA") (SimulationOutcome.failure "connection reset")).attempts
      = [Attempt.rejectErr "connection reset",
         Attempt.resolveRes { result := false, gas := none }] :=
  (claim9_reject_precedes_resolve 1 "0xC" (some "0xA") (some "0xB") (some 7)
    "connection reset" (by decide) (by decide) (by decide) (by decide)).1

/-- Claim C10: the expected-failure vocabulary is exactly the substrings
"always failing transaction" and "execution reverted", checked by substring
inclusion on the rendered error; for every error outcome each operation
resolves with the false flag exactly when the message contains one of the
two substrings, and otherwise rejects with the original error. -/
theorem claim10_signature_vocabulary
    (t : Nat) (mca : String) (c g : Option String) (tok : Option Nat)
    (e : String) (hc : truthyStr c = true) (htok : truthyTok tok = true)
    (hg : truthyStr g = true) :
    matchesKnownSignature e
      = (strIncludes e "always failing transaction"
         || strIncludes e "execution reverted") ∧
    ((observed (basicRun t c (SimulationOutcome.failure e))
        = some (Attempt.resolveRes { result := false, gas := none }))
      ↔ matchesKnownSignature e = true) ∧
    (matchesKnownSignature e = false →
      observed (basicRun t c (SimulationOutcome.failure e))
        = some (Attempt.rejectErr e)) ∧
    ((observed (tokenRun t c tok (SimulationOutcome.failure e))
        = some (Attempt.resolveRes { result := false, gas := none }))
      ↔ matchesKnownSignature e = true) ∧
    (matchesKnownSignature e = false →
      observed (tokenRun t c tok (SimulationOutcome.failure e))
        = some (Attempt.rejectErr e)) ∧
    ((observed (transferRun mca t c tok g (SimulationOutcome.failure e))
        = some (Attempt.resolveRes { result := false, gas := none }))
      ↔ matchesKnownSignature e = true) ∧
    (matchesKnownSignature e = false →
      observed (transferRun mca t c tok g (SimulationOutcome.failure e))
        = some (Attempt.rejectErr e)) := by
  refine ⟨rfl, ?_, ?_, ?_, ?_, ?_, ?_⟩ <;>
    cases hm : matchesKnownSignature e <;>
      simp [observed, basicRun, tokenRun, transferRun, callbackAttempts,
        hc, htok, hg, hm]

/-- Witness for C10 at the execution-reverted example. -/
theorem claim10_signature_vocabulary_witness :
    matchesKnownSignature "execution reverted"
      = (strIncludes "execution reverted" "always failing transaction"
         || strIncludes "execution reverted" "execution reverted") :=
  (claim10_signature_vocabulary 1 "0xC" (some "0xA") (some "0xB") (some 7)
    "execution reverted" (by decide) (by decide) (by decide)).1

end ERC721
